import Mathlib

/-!
Verification of the AIChat3D real-time avatar animation core.

The definitions below are a shallow embedding of the per-frame animation
code of the repository:

* `lerp` — the smoothing primitive `THREE.MathUtils.lerp` used everywhere.
* `VRMAvatar.*` — the rigged-avatar driver (`src/components/VRMAvatar.tsx`):
  the `rotateBone` helper, the voice-energy computation over bins [2,30)
  and the expression tick (mouth + squint + blink branch).
* `MMDModel.*` — the MMD morph driver (`src/components/Scene.tsx`, second
  component in the file): voice energy over bins [2,50), mouth morph tick.
* `DefaultAvatar.*` — the fallback primitive-shape driver
  (`src/components/DefaultAvatar.tsx`): voice energy over bins [2,30),
  squash/stretch scale tick (with the `1/sqrt` volume-preservation term).
* `getAvatarState` — the conversational-state derivation (`App.tsx`).

Machine bytes from the analyser are modelled as natural numbers, exact
arithmetic is over `ℚ` (the decimal literals of the source are exact in
`ℚ`), and the scale tick, which uses a real square root, is modelled as a
step relation over `ℝ`.
-/

namespace AIChat3D

/-- Smoothing primitive: `THREE.MathUtils.lerp(x, y, t) = (1 - t) * x + t * y`. -/
def lerp {α : Type*} [CommRing α] (x y t : α) : α := (1 - t) * x + t * y

/-- Audio tap snapshot handed to every driver each frame: the playing flag
and, when an analyser node exists, the byte frequency magnitudes
(`getByteFrequencyData`, values conceptually 0–255). -/
structure AudioState where
  isPlaying : Bool
  analyser : Option (ℕ → ℕ)

/-- Average of the magnitude samples over the sub-band window
`[startBin, endBin)`, as computed by the `for` loops of all three drivers:
`sum / (endBin - startBin)`. -/
def bandAverage (data : ℕ → ℕ) (startBin endBin : ℕ) : ℚ :=
  (((Finset.Ico startBin endBin).sum fun i => (data i : ℚ))) / ((endBin : ℚ) - (startBin : ℚ))

namespace VRMAvatar

/-- Lip-sync window start of `VRMAvatar.tsx` (`const startBin = 2`). -/
def startBin : ℕ := 2

/-- Lip-sync window end of `VRMAvatar.tsx` (`const endBin = 30`). -/
def endBin : ℕ := 30

/-- Voice energy of the rig driver, `VRMAvatar.tsx` lines 180–190:
`volume = Math.min(1.0, Math.max(0, (average / 255) * 3.5))` with the
average taken over bins `[2, 30)`. -/
def volume (data : ℕ → ℕ) : ℚ :=
  min 1 (max 0 (bandAverage data startBin endBin / 255 * 3.5))

/-- State of the two expression weights the driver writes:
`aa` (mouth open) and `blink`. -/
structure ExprState where
  aa : ℚ
  blink : ℚ
deriving DecidableEq

/-- Expression tick of `VRMAvatar.tsx` lines 176–218, for one frame.
`em` is the optional `vrm.expressionManager` state ( `none` when the loaded
asset has no expression system), `rand` is the fresh `Math.random()` sample
of this frame. When playing with an analyser: `aa` is set to the computed
volume, and when `volume > 0.6` the blink weight is pulled toward `0.5`.
Otherwise: `aa` decays via `lerp(aa, 0, 0.2)` and the blink process runs
(`rand > 0.992` triggers a full blink, else `blink` decays via
`lerp(blink, 0, 0.2)`). -/
def exprTick (audio : AudioState) (rand : ℚ) (em : Option ExprState) : Option ExprState :=
  match audio.isPlaying, audio.analyser with
  | true, some data =>
    match em with
    | none => none
    | some e =>
      let v := volume data
      if v > 0.6 then some (ExprState.mk v (lerp e.blink 0.5 0.2))
      else some (ExprState.mk v e.blink)
  | _, _ =>
    match em with
    | none => none
    | some e =>
      if rand > 0.992 then some (ExprState.mk (lerp e.aa 0 0.2) 1)
      else some (ExprState.mk (lerp e.aa 0 0.2) (lerp e.blink 0 0.2))

/-- Mouth-open weight read out of an optional expression state (0 when the
asset has no expression system, in which case nothing was written). -/
def aaOf : Option ExprState → ℚ
  | some e => e.aa
  | none => 0

/-- Iterated expression ticks, one fresh random sample per frame. -/
def exprRun (audio : AudioState) (rands : List ℚ) (em : Option ExprState) : Option ExprState :=
  match rands with
  | [] => em
  | r :: rs => exprRun audio rs (exprTick audio r em)

end VRMAvatar

namespace MMDModel

/-- Speech window start of the MMD morph driver (`Scene.tsx`,
`const startBin = 2`). -/
def startBin : ℕ := 2

/-- Speech window end of the MMD morph driver (`Scene.tsx`,
`const endBin = 50`). -/
def endBin : ℕ := 50

/-- Tuning constant of the MMD morph driver (`const sensitivity = 2.0`). -/
def sensitivity : ℚ := 2.0

/-- Morph influence target of the MMD driver, `Scene.tsx` lines 131–148:
`value = Math.min(1, Math.max(0, (average / 100) * sensitivity))` with the
average over bins `[2, 50)`. -/
def value (data : ℕ → ℕ) : ℚ :=
  min 1 (max 0 (bandAverage data startBin endBin / 100 * sensitivity))

/-- Mouth tick of the MMD driver, `Scene.tsx` lines 119–155. `morph` is the
tracked mouth morph influence, present only when the mesh and a morph index
exist. The guard returns early when the mesh, the morph index or the
analyser is missing or the audio is not playing; inside the guard the morph
decays via `lerp(·, 0, 0.2)` only when the mesh and index exist and the
audio is not playing. Past the guard the morph is advanced via
`lerp(current, value, 0.4)`. -/
def mouthTick (audio : AudioState) (morph : Option ℚ) : Option ℚ :=
  match morph, audio.analyser, audio.isPlaying with
  | some m, some data, true => some (lerp m (value data) 0.4)
  | some m, _, false => some (lerp m 0 0.2)
  | some m, none, true => some m
  | none, _, _ => none

end MMDModel

namespace DefaultAvatar

/-- Speech window start of the fallback shape driver
(`DefaultAvatar.tsx`, `const startBin = 2`). -/
def startBin : ℕ := 2

/-- Speech window end of the fallback shape driver
(`DefaultAvatar.tsx`, `const endBin = 30`). -/
def endBin : ℕ := 30

/-- Voice energy of the fallback driver, `DefaultAvatar.tsx` lines 25–33:
`volume = Math.min(1, average / 100)` with the average over bins `[2, 30)`. -/
def volume (data : ℕ → ℕ) : ℚ :=
  min 1 (bandAverage data startBin endBin / 100)

/-- Vertical scale target, `DefaultAvatar.tsx` lines 18 and 37:
`targetScaleY = 1 + volume * 0.5` when playing with an analyser, else the
initial value 1. -/
def targetScaleY (audio : AudioState) : ℚ :=
  match audio.isPlaying, audio.analyser with
  | true, some data => 1 + volume data * 0.5
  | _, _ => 1

/-- Non-uniform scale of the fallback mesh. -/
structure ShapeScale where
  x : ℝ
  y : ℝ
  z : ℝ

/-- Scale tick of the fallback driver, `DefaultAvatar.tsx` lines 45–51, as a
step relation over `ℝ` (the source computes `1 / Math.sqrt` of the already
updated `scale.y`): `y' = lerp(y, targetScaleY, 0.2)`, then
`inverseScale = 1 / sqrt(y')` and `x' = lerp(x, inverseScale, 0.2)`,
`z' = lerp(z, inverseScale, 0.2)`. -/
def ScaleTick (audio : AudioState) (pre post : ShapeScale) : Prop :=
  post.y = lerp pre.y ((targetScaleY audio : ℚ) : ℝ) 0.2 ∧
  post.x = lerp pre.x (1 / Real.sqrt post.y) 0.2 ∧
  post.z = lerp pre.z (1 / Real.sqrt post.y) 0.2

end DefaultAvatar

/-- Conversational state of the avatar (`types.ts` / `App.tsx`). -/
inductive AvatarState where
  | speaking
  | thinking
  | typing
  | idle
deriving DecidableEq

/-- Derivation of the conversational state from the three input booleans,
`App.tsx` `getAvatarState`: speaking when audio plays, else thinking when a
request is in flight, else typing when the user types, else idle. -/
def getAvatarState (isPlaying isProcessing isUserTyping : Bool) : AvatarState :=
  if isPlaying then .speaking
  else if isProcessing then .thinking
  else if isUserTyping then .typing
  else .idle

namespace VRMAvatar

/-- The closed set of humanoid bone names addressed by the pose code. -/
inductive BoneName where
  | head
  | neck
  | spine
  | hips
  | leftUpperArm
  | leftLowerArm
  | leftHand
  | rightUpperArm
  | rightLowerArm
  | rightHand
deriving DecidableEq

/-- Euler rotation of one bone node. -/
structure Rot where
  x : ℚ
  y : ℚ
  z : ℚ
deriving DecidableEq

/-- The loaded humanoid rig: each bone name resolves to a rotation state when
the rig has that bone (`humanoid.getRawBoneNode`), and to `none` otherwise. -/
def Humanoid : Type := BoneName → Option Rot

/-- Bone rotation helper of `VRMAvatar.tsx` lines 77–84: look the bone up;
when present, advance each rotation axis via `lerp(current, target, speed)`;
when absent, do nothing. -/
def rotateBone (h : Humanoid) (bone : BoneName) (x y z speed : ℚ) : Humanoid :=
  match h bone with
  | none => h
  | some r =>
    Function.update h bone (some (Rot.mk (lerp r.x x speed) (lerp r.y y speed) (lerp r.z z speed)))

end VRMAvatar

/-! Helper lemmas shared by several results. -/

/-- When the audio is playing and an analyser exists, the expression tick
writes the computed volume directly into the mouth-open weight. -/
lemma exprTick_aa_playing (data : ℕ → ℕ) (rand : ℚ) (e : VRMAvatar.ExprState) :
    VRMAvatar.aaOf (VRMAvatar.exprTick (AudioState.mk true (some data)) rand (some e)) =
      VRMAvatar.volume data := by
  simp only [VRMAvatar.exprTick]
  split_ifs <;> rfl

/-- Shape of the expression tick on a frame with the audio not playing. -/
lemma exprTick_silent (audio : AudioState) (rand : ℚ) (e : VRMAvatar.ExprState)
    (h : audio.isPlaying = false) :
    VRMAvatar.exprTick audio rand (some e) =
      some (VRMAvatar.ExprState.mk (lerp e.aa 0 0.2)
        (if rand > 0.992 then 1 else lerp e.blink 0 0.2)) := by
  rcases audio with ⟨p, a⟩
  simp only [AudioState.isPlaying] at h
  subst h
  cases a with
  | none => by_cases hr : rand > 0.992 <;> simp [VRMAvatar.exprTick, hr]
  | some data => by_cases hr : rand > 0.992 <;> simp [VRMAvatar.exprTick, hr]

/-- The all-200 audio frame saturates the rig-driver volume at exactly 1. -/
lemma volume_const200 : VRMAvatar.volume (fun _ => 200) = 1 := by
  norm_num [VRMAvatar.volume, bandAverage, VRMAvatar.startBin, VRMAvatar.endBin,
    Finset.sum_const, Nat.card_Ico]

/-- On the step frame (0 below bin 30, 255 from bin 30 on) the low window
sums to 0. -/
lemma stepData_sum_low :
    ((Finset.Ico 2 30).sum fun i => ((if i < 30 then 0 else 255 : ℕ) : ℚ)) = 0 :=
  Finset.sum_eq_zero fun i hi => by
    have h : i < 30 := (Finset.mem_Ico.mp hi).2
    simp [h]

/-- On the step frame the high band [30,50) sums to 20 * 255 = 5100. -/
lemma stepData_sum_high :
    ((Finset.Ico 30 50).sum fun i => ((if i < 30 then 0 else 255 : ℕ) : ℚ)) = 5100 := by
  have h : ∀ i ∈ Finset.Ico 30 50, ((if i < 30 then 0 else 255 : ℕ) : ℚ) = 255 := fun i hi => by
    have h2 : ¬ i < 30 := not_lt.mpr (Finset.mem_Ico.mp hi).1
    simp [h2]
  rw [Finset.sum_congr rfl h, Finset.sum_const, Nat.card_Ico]
  norm_num

/-! Claim theorems. -/

/-- C1: for every audio frame with the analyser present and isPlaying true,
the rig driver voice energy equals
clamp((average of the samples over bins [2,30)) / 255 * 3.5, 0, 1); in
particular it is exactly 1 when all samples in the window are 200. -/
theorem c1_rig_voice_energy :
    (∀ (data : ℕ → ℕ) (e : VRMAvatar.ExprState) (rand : ℚ),
        VRMAvatar.aaOf (VRMAvatar.exprTick (AudioState.mk true (some data)) rand (some e)) =
          min 1 (max 0 ((((Finset.Ico 2 30).sum fun i => (data i : ℚ)) / 28) / 255 * 3.5))) ∧
    (∀ (e : VRMAvatar.ExprState) (rand : ℚ),
        VRMAvatar.aaOf (VRMAvatar.exprTick (AudioState.mk true (some (fun _ => 200))) rand
          (some e)) = 1) := by
  constructor
  · intro data e rand
    rw [exprTick_aa_playing]
    norm_num [VRMAvatar.volume, bandAverage, VRMAvatar.startBin, VRMAvatar.endBin]
  · intro e rand
    rw [exprTick_aa_playing, volume_const200]

/-- C2 counterexample: with the mouth-open weight at 0 and an all-200 frame
(volume 1), the rig driver sets the weight to 1 in one tick, while
lerp(0, 1, 0.4) = 0.4; hence the weight is assigned the voice energy
directly, not advanced by exponential interpolation with factor 0.4. -/
theorem c2_counterexample :
    VRMAvatar.aaOf (VRMAvatar.exprTick (AudioState.mk true (some (fun _ => 200))) 0
      (some (VRMAvatar.ExprState.mk 0 0))) = 1 ∧
    lerp (0:ℚ) 1 0.4 = 0.4 ∧ (0.4:ℚ) ≠ 1 := by
  refine ⟨?_, by norm_num [lerp], by norm_num⟩
  rw [exprTick_aa_playing, volume_const200]

/-- C2 amended: the MMD morph driver advances the mouth morph via
lerp(current, value, 0.4) on playing frames with an analyser, while the VRM
rig driver assigns the computed voice energy to the mouth-open weight
directly, with no interpolation. -/
theorem c2_amended :
    (∀ (data : ℕ → ℕ) (m : ℚ),
        MMDModel.mouthTick (AudioState.mk true (some data)) (some m) =
          some (lerp m (MMDModel.value data) 0.4)) ∧
    (∀ (data : ℕ → ℕ) (rand : ℚ) (e : VRMAvatar.ExprState),
        VRMAvatar.aaOf (VRMAvatar.exprTick (AudioState.mk true (some data)) rand (some e)) =
          VRMAvatar.volume data) := by
  exact ⟨fun data m => rfl, fun data rand e => exprTick_aa_playing data rand e⟩

/-- C3 counterexample: the fallback shape driver window is [2,30), the same
window as the rig driver, not [2,50); the two drivers share the window
rather than using distinct ones. -/
theorem c3_counterexample :
    DefaultAvatar.startBin = VRMAvatar.startBin ∧
    DefaultAvatar.endBin = VRMAvatar.endBin ∧
    DefaultAvatar.endBin = 30 ∧ DefaultAvatar.endBin ≠ 50 := by
  refine ⟨rfl, rfl, rfl, by decide⟩

/-- C3 amended: the rig driver and the fallback shape driver both use the
window [2,30); the [2,50) window belongs to the MMD morph driver. On a
frame that is zero below bin 30 and 255 from bin 30 on, the fallback driver
reads energy 0 while the MMD driver saturates at 1. -/
theorem c3_amended :
    DefaultAvatar.startBin = 2 ∧ DefaultAvatar.endBin = 30 ∧
    VRMAvatar.startBin = 2 ∧ VRMAvatar.endBin = 30 ∧
    MMDModel.startBin = 2 ∧ MMDModel.endBin = 50 ∧
    DefaultAvatar.volume (fun i => if i < 30 then 0 else 255) = 0 ∧
    MMDModel.value (fun i => if i < 30 then 0 else 255) = 1 := by
  refine ⟨rfl, rfl, rfl, rfl, rfl, rfl, ?_, ?_⟩
  · simp only [DefaultAvatar.volume, bandAverage, DefaultAvatar.startBin, DefaultAvatar.endBin]
    rw [stepData_sum_low]
    norm_num
  · have hsplit : ((Finset.Ico 2 50).sum fun i => ((if i < 30 then 0 else 255 : ℕ) : ℚ)) = 5100 := by
      rw [← Finset.sum_Ico_consecutive _ (by norm_num : (2:ℕ) ≤ 30) (by norm_num : (30:ℕ) ≤ 50),
        stepData_sum_low, stepData_sum_high]
      norm_num
    simp only [MMDModel.value, bandAverage, MMDModel.startBin, MMDModel.endBin,
      MMDModel.sensitivity]
    rw [hsplit]
    norm_num

/-- C6: the derived conversational state is speaking when audio plays, else
thinking (awaiting response) when a request is in flight, else typing when
the user types, else idle — precedence speaking over thinking over typing
over idle, for all eight boolean combinations. -/
theorem c6_state_precedence :
    ∀ p r t : Bool,
      (getAvatarState p r t = .speaking ↔ p = true) ∧
      (getAvatarState p r t = .thinking ↔ p = false ∧ r = true) ∧
      (getAvatarState p r t = .typing ↔ p = false ∧ r = false ∧ t = true) ∧
      (getAvatarState p r t = .idle ↔ p = false ∧ r = false ∧ t = false) := by
  decide

/-- C7: on every frame with the audio not playing, the blink process uses
the fresh random sample of that frame: a sample above 0.992 sets the blink
weight to 1 immediately, otherwise the blink weight decays via
lerp(blink, 0, 0.2); the tick carries no timer state, only the two
expression weights. -/
theorem c7_blink_process :
    ∀ (audio : AudioState) (rand : ℚ) (e : VRMAvatar.ExprState),
      audio.isPlaying = false →
      VRMAvatar.exprTick audio rand (some e) =
        some (VRMAvatar.ExprState.mk (lerp e.aa 0 0.2)
          (if rand > 0.992 then 1 else lerp e.blink 0 0.2)) :=
  fun audio rand e h => exprTick_silent audio rand e h

/-- C7 witness: a concrete silent frame with sample 0.995 above the
threshold. -/
theorem c7_witness :
    (AudioState.mk false none).isPlaying = false ∧
    VRMAvatar.exprTick (AudioState.mk false none) 0.995
        (some (VRMAvatar.ExprState.mk 0.5 0.5)) =
      some (VRMAvatar.ExprState.mk (lerp 0.5 0 0.2)
        (if (0.995:ℚ) > 0.992 then 1 else lerp 0.5 0 0.2)) :=
  ⟨rfl, c7_blink_process (AudioState.mk false none) 0.995 (VRMAvatar.ExprState.mk 0.5 0.5) rfl⟩

/-- C9: a joint absent from the loaded rig is skipped silently — the bone
helper leaves the whole pose unchanged — and when the loaded asset has no
expression system the expression tick is a no-op. -/
theorem c9_missing_parts_tolerated :
    (∀ (h : VRMAvatar.Humanoid) (bone : VRMAvatar.BoneName) (x y z speed : ℚ),
        h bone = none → VRMAvatar.rotateBone h bone x y z speed = h) ∧
    (∀ (audio : AudioState) (rand : ℚ),
        VRMAvatar.exprTick audio rand none = none) := by
  constructor
  · intro h bone x y z speed hb
    simp [VRMAvatar.rotateBone, hb]
  · intro audio rand
    rcases audio with ⟨p, a⟩
    cases p <;> cases a <;> rfl

/-- C9 witness: the empty rig has no head bone and rotating it changes
nothing. -/
theorem c9_witness :
    ((fun _ => none) : VRMAvatar.Humanoid) VRMAvatar.BoneName.head = none ∧
    VRMAvatar.rotateBone (fun _ => none) VRMAvatar.BoneName.head 1 2 3 0.1 =
      ((fun _ => none) : VRMAvatar.Humanoid) :=
  ⟨rfl, c9_missing_parts_tolerated.1 (fun _ => none) VRMAvatar.BoneName.head 1 2 3 0.1 rfl⟩

/-- Mouth-open decay across a run of silent frames: each tick multiplies the
weight by 0.8, whatever the random samples are. -/
lemma exprRun_aa_silent (audio : AudioState) (h : audio.isPlaying = false) :
    ∀ (rands : List ℚ) (e : VRMAvatar.ExprState),
      VRMAvatar.aaOf (VRMAvatar.exprRun audio rands (some e)) =
        (0.8:ℚ) ^ rands.length * e.aa := by
  intro rands
  induction rands with
  | nil => intro e; simp [VRMAvatar.exprRun, VRMAvatar.aaOf]
  | cons r rs ih =>
    intro e
    show VRMAvatar.aaOf (VRMAvatar.exprRun audio rs (VRMAvatar.exprTick audio r (some e))) = _
    rw [exprTick_silent audio r e h, ih]
    simp only [VRMAvatar.ExprState.aa, List.length_cons, lerp]
    ring

/-- Twenty-one factor-0.8 decay steps from anywhere in [0,1] land below 0.01. -/
lemma decay_bound (k : ℕ) (a : ℚ) (_h0 : 0 ≤ a) (h1 : a ≤ 1) (hk : 21 ≤ k) :
    (0.8:ℚ) ^ k * a < 0.01 := by
  have h2 : (0.8:ℚ) ^ k ≤ (0.8:ℚ) ^ 21 :=
    pow_le_pow_of_le_one (by norm_num) (by norm_num) hk
  have h3 : (0.8:ℚ) ^ 21 < 0.01 := by norm_num
  have h4 : (0.8:ℚ) ^ k * a ≤ (0.8:ℚ) ^ k * 1 :=
    mul_le_mul_of_nonneg_left h1 (by positivity)
  rw [mul_one] at h4
  linarith

/-- C5 counterexample: on a frame with isPlaying true but no analyser, the
MMD driver leaves the mouth morph unchanged at 0.5 instead of decaying it
via lerp(mouthOpen, 0, 0.2). -/
theorem c5_counterexample :
    MMDModel.mouthTick (AudioState.mk true none) (some 0.5) = some 0.5 ∧
    lerp (0.5:ℚ) 0 0.2 ≠ 0.5 :=
  ⟨rfl, by norm_num [lerp]⟩

/-- C5 amended: whenever isPlaying is false both drivers decay the mouth
weight via lerp(mouthOpen, 0, 0.2); the VRM driver decays it also when the
analyser is absent while playing, but the MMD driver leaves the morph
unchanged in that case; and for any start in [0,1], after at least 21
consecutive not-playing frames the VRM mouth weight is below 0.01. -/
theorem c5_amended :
    (∀ (audio : AudioState) (rand : ℚ) (e : VRMAvatar.ExprState), audio.isPlaying = false →
        VRMAvatar.aaOf (VRMAvatar.exprTick audio rand (some e)) = lerp e.aa 0 0.2) ∧
    (∀ (rand : ℚ) (e : VRMAvatar.ExprState),
        VRMAvatar.aaOf (VRMAvatar.exprTick (AudioState.mk true none) rand (some e)) =
          lerp e.aa 0 0.2) ∧
    (∀ (audio : AudioState) (m : ℚ), audio.isPlaying = false →
        MMDModel.mouthTick audio (some m) = some (lerp m 0 0.2)) ∧
    (∀ (audio : AudioState) (rands : List ℚ) (e : VRMAvatar.ExprState),
        audio.isPlaying = false → 0 ≤ e.aa → e.aa ≤ 1 → 21 ≤ rands.length →
        VRMAvatar.aaOf (VRMAvatar.exprRun audio rands (some e)) < 0.01) := by
  refine ⟨?_, ?_, ?_, ?_⟩
  · intro audio rand e h
    rw [exprTick_silent audio rand e h]
    rfl
  · intro rand e
    by_cases hr : rand > 0.992 <;> simp [VRMAvatar.exprTick, VRMAvatar.aaOf, hr]
  · intro audio m h
    rcases audio with ⟨p, a⟩
    simp only [AudioState.isPlaying] at h
    subst h
    cases a <;> rfl
  · intro audio rands e h h0 h1 hk
    rw [exprRun_aa_silent audio h rands e]
    exact decay_bound rands.length e.aa h0 h1 hk

/-- C5 witness: starting from mouth weight 1 and running 21 silent frames
lands the weight below 0.01. -/
theorem c5_witness :
    (AudioState.mk false none).isPlaying = false ∧
    (0:ℚ) ≤ (VRMAvatar.ExprState.mk 1 0).aa ∧
    (VRMAvatar.ExprState.mk (1:ℚ) 0).aa ≤ 1 ∧
    21 ≤ (List.replicate 21 (0:ℚ)).length ∧
    VRMAvatar.aaOf (VRMAvatar.exprRun (AudioState.mk false none) (List.replicate 21 0)
      (some (VRMAvatar.ExprState.mk 1 0))) < 0.01 :=
  ⟨rfl, by norm_num, by norm_num, by simp,
    c5_amended.2.2.2 (AudioState.mk false none) (List.replicate 21 0)
      (VRMAvatar.ExprState.mk 1 0) rfl (by norm_num) (by norm_num) (by simp)⟩

/-- A concrete resting tick of the fallback scale driver: with no audio, the
unit scale is a fixed point of the scale tick. -/
lemma scaleTick_unit :
    DefaultAvatar.ScaleTick (AudioState.mk false none)
      (DefaultAvatar.ShapeScale.mk 1 1 1) (DefaultAvatar.ShapeScale.mk 1 1 1) := by
  refine ⟨?_, ?_, ?_⟩ <;>
    norm_num [lerp, DefaultAvatar.targetScaleY, Real.sqrt_one]

/-- C10: the fallback scale tick preserves the equality of the two
horizontal scales: if scaleX = scaleZ before a tick, they are equal after
it, because both are interpolated toward the same inverse scale with the
same factor. -/
theorem c10_horizontal_equality_preserved :
    ∀ (audio : AudioState) (pre post : DefaultAvatar.ShapeScale),
      DefaultAvatar.ScaleTick audio pre post → pre.x = pre.z → post.x = post.z := by
  intro audio pre post htick hxz
  rw [htick.2.1, htick.2.2, hxz]

/-- C10 witness: the resting tick on the unit scale keeps the horizontal
scales equal. -/
theorem c10_witness :
    DefaultAvatar.ScaleTick (AudioState.mk false none)
      (DefaultAvatar.ShapeScale.mk 1 1 1) (DefaultAvatar.ShapeScale.mk 1 1 1) ∧
    (DefaultAvatar.ShapeScale.mk (1:ℝ) 1 1).x = (DefaultAvatar.ShapeScale.mk (1:ℝ) 1 1).z ∧
    (DefaultAvatar.ShapeScale.mk (1:ℝ) 1 1).x = (DefaultAvatar.ShapeScale.mk (1:ℝ) 1 1).z :=
  ⟨scaleTick_unit, rfl,
    c10_horizontal_equality_preserved (AudioState.mk false none)
      (DefaultAvatar.ShapeScale.mk 1 1 1) (DefaultAvatar.ShapeScale.mk 1 1 1) scaleTick_unit rfl⟩

/-- C4 counterexample: one concrete tick violates the exact invariant. From
the unit scale, with a saturating frame (all samples 200, so
targetScaleY = 1.5), the tick yields scaleY = 1.1 and
scaleX = lerp(1, 1/sqrt(1.1), 0.2), which differs from 1/sqrt(1.1): the
horizontal scales only move 20% toward the volume-preserving value. -/
theorem c4_counterexample :
    DefaultAvatar.ScaleTick (AudioState.mk true (some (fun _ => 200)))
      (DefaultAvatar.ShapeScale.mk 1 1 1)
      (DefaultAvatar.ShapeScale.mk (lerp 1 (1 / Real.sqrt 1.1) 0.2) 1.1
        (lerp 1 (1 / Real.sqrt 1.1) 0.2)) ∧
    (0:ℝ) < 1.1 ∧
    lerp (1:ℝ) (1 / Real.sqrt 1.1) 0.2 ≠ 1 / Real.sqrt 1.1 := by
  have hv : DefaultAvatar.volume (fun _ => 200) = 1 := by
    norm_num [DefaultAvatar.volume, bandAverage, DefaultAvatar.startBin, DefaultAvatar.endBin,
      Finset.sum_const, Nat.card_Ico]
  have ht : DefaultAvatar.targetScaleY (AudioState.mk true (some (fun _ => 200))) = 1.5 := by
    simp only [DefaultAvatar.targetScaleY, hv]
    norm_num
  refine ⟨⟨?_, rfl, rfl⟩, by norm_num, ?_⟩
  · rw [ht]
    norm_num [lerp]
  · intro hcontra
    have hs : (0:ℝ) < Real.sqrt 1.1 := Real.sqrt_pos.mpr (by norm_num)
    rw [lerp] at hcontra
    field_simp at hcontra
    have h1 : Real.sqrt 1.1 = 1 := by linarith
    have h2 : (1.1:ℝ) = 1 := Real.sqrt_eq_one.mp h1
    norm_num at h2

/-- C4 amended: after a fallback scale tick, scaleX and scaleZ have each
moved 20% of the way toward 1/sqrt(scaleY) (the distance to the
volume-preserving value is multiplied by 0.8), they stay equal to each
other when they were equal before, and the exact equality
scaleX = 1/sqrt(scaleY) holds after the tick exactly when the pre-tick
scaleX already equalled 1/sqrt of the new scaleY. -/
theorem c4_amended :
    ∀ (audio : AudioState) (pre post : DefaultAvatar.ShapeScale),
      DefaultAvatar.ScaleTick audio pre post →
      (post.x - 1 / Real.sqrt post.y = (0.8:ℝ) * (pre.x - 1 / Real.sqrt post.y)) ∧
      (post.z - 1 / Real.sqrt post.y = (0.8:ℝ) * (pre.z - 1 / Real.sqrt post.y)) ∧
      (pre.x = pre.z → post.x = post.z) ∧
      (post.x = 1 / Real.sqrt post.y ↔ pre.x = 1 / Real.sqrt post.y) := by
  intro audio pre post htick
  obtain ⟨hy, hx, hz⟩ := htick
  have hx8 : post.x - 1 / Real.sqrt post.y = (0.8:ℝ) * (pre.x - 1 / Real.sqrt post.y) := by
    rw [hx, lerp]; ring_nf
  have hz8 : post.z - 1 / Real.sqrt post.y = (0.8:ℝ) * (pre.z - 1 / Real.sqrt post.y) := by
    rw [hz, lerp]; ring_nf
  refine ⟨hx8, hz8, ?_, ?_⟩
  · intro hxz
    rw [hx, hz, hxz]
  · constructor
    · intro h
      have h8 : (0.8:ℝ) * (pre.x - 1 / Real.sqrt post.y) = 0 := by rw [← hx8, h]; ring
      have h9 : pre.x - 1 / Real.sqrt post.y = 0 := by
        rcases mul_eq_zero.mp h8 with h | h
        · norm_num at h
        · exact h
      linarith
    · intro h
      have h9 : post.x - 1 / Real.sqrt post.y = 0 := by rw [hx8, h]; ring
      linarith

/-- C4 witness: the resting tick on the unit scale satisfies the amended
statement. -/
theorem c4_witness :
    DefaultAvatar.ScaleTick (AudioState.mk false none)
      (DefaultAvatar.ShapeScale.mk 1 1 1) (DefaultAvatar.ShapeScale.mk 1 1 1) ∧
    (((1:ℝ) - 1 / Real.sqrt 1 = (0.8:ℝ) * (1 - 1 / Real.sqrt 1)) ∧
     ((1:ℝ) - 1 / Real.sqrt 1 = (0.8:ℝ) * (1 - 1 / Real.sqrt 1)) ∧
     ((1:ℝ) = 1 → (1:ℝ) = 1) ∧
     ((1:ℝ) = 1 / Real.sqrt 1 ↔ (1:ℝ) = 1 / Real.sqrt 1)) :=
  ⟨scaleTick_unit,
    c4_amended (AudioState.mk false none) (DefaultAvatar.ShapeScale.mk 1 1 1)
      (DefaultAvatar.ShapeScale.mk 1 1 1) scaleTick_unit⟩

/-- C8: repeated smoothing toward a fixed target with factor f in (0,1]
contracts the distance to the target by the constant ratio (1 - f) in
[0,1) on every tick, so the distance is antitone (no oscillation) and tends
to 0. -/
theorem c8_lerp_convergence :
    ∀ (c t f : ℝ), 0 < f → f ≤ 1 →
      (∀ k : ℕ,
        |(fun x => lerp x t f)^[k + 1] c - t| =
          (1 - f) * |(fun x => lerp x t f)^[k] c - t|) ∧
      0 ≤ 1 - f ∧ 1 - f < 1 ∧
      Antitone (fun k : ℕ => |(fun x => lerp x t f)^[k] c - t|) ∧
      Filter.Tendsto (fun k : ℕ => |(fun x => lerp x t f)^[k] c - t|)
        Filter.atTop (nhds 0) := by
  intro c t f hf0 hf1
  have habs : ∀ x : ℝ, |lerp x t f - t| = (1 - f) * |x - t| := by
    intro x
    have hkey : lerp x t f - t = (1 - f) * (x - t) := by rw [lerp]; ring
    rw [hkey, abs_mul, abs_of_nonneg (by linarith : (0:ℝ) ≤ 1 - f)]
  have hstep : ∀ k : ℕ,
      |(fun x => lerp x t f)^[k + 1] c - t| =
        (1 - f) * |(fun x => lerp x t f)^[k] c - t| := by
    intro k
    rw [Function.iterate_succ_apply']
    exact habs _
  have hgeom : ∀ k : ℕ,
      |(fun x => lerp x t f)^[k] c - t| = (1 - f) ^ k * |c - t| := by
    intro k
    induction k with
    | zero => simp
    | succ n ih => rw [hstep n, ih]; ring
  refine ⟨hstep, by linarith, by linarith, ?_, ?_⟩
  · apply antitone_nat_of_succ_le
    intro n
    rw [hstep n]
    have hnn : (0:ℝ) ≤ |(fun x => lerp x t f)^[n] c - t| := abs_nonneg _
    nlinarith
  · have h1 : Filter.Tendsto (fun k : ℕ => (1 - f) ^ k * |c - t|)
        Filter.atTop (nhds (0 * |c - t|)) :=
      (tendsto_pow_atTop_nhds_zero_of_lt_one (by linarith) (by linarith)).mul_const _
    rw [zero_mul] at h1
    exact Filter.Tendsto.congr (fun k => (hgeom k).symm) h1

/-- C8 witness: the convergence facts at current 1, target 0, factor one
half. -/
theorem c8_witness :
    (0:ℝ) < 0.5 ∧ (0.5:ℝ) ≤ 1 ∧
    ((∀ k : ℕ,
        |(fun x => lerp x (0:ℝ) 0.5)^[k + 1] 1 - 0| =
          (1 - 0.5) * |(fun x => lerp x (0:ℝ) 0.5)^[k] 1 - 0|) ∧
     (0:ℝ) ≤ 1 - 0.5 ∧ (1:ℝ) - 0.5 < 1 ∧
     Antitone (fun k : ℕ => |(fun x => lerp x (0:ℝ) 0.5)^[k] 1 - 0|) ∧
     Filter.Tendsto (fun k : ℕ => |(fun x => lerp x (0:ℝ) 0.5)^[k] 1 - 0|)
       Filter.atTop (nhds 0)) :=
  ⟨by norm_num, by norm_num, c8_lerp_convergence 1 0 0.5 (by norm_num) (by norm_num)⟩

end AIChat3D
